import Mathlib

set_option linter.unusedVariables false

/-!
Verification of the schema-change reconciliation engine of the `crm`
repository: the event-coalescing engine (`TableInfo` in
`src/components/business_components/tables/table_info.rs`) and the DDL
compiler / DML string builders (`Repository` in
`src/components/business_components/database/repository.rs`), shallowly
embedded as pure Lean functions over explicit state.
-/

namespace Crm

/-- Modelled from the spec: the `DataType` enum of the change-event model
(`schemas.rs` is not part of the provided sources); §3 lists the variants
TEXT, INTEGER, BOOLEAN, TIMESTAMP. -/
inductive BDataType
  | TEXT
  | INTEGER
  | BOOLEAN
  | TIMESTAMP
deriving DecidableEq, Repr

/-- Modelled from the spec: the SQL rendering of a `DataType` used by the
DDL compiler (`format!("{}", data_type)` in `repository.rs`; the `Display`
impl lives in the absent `schemas.rs`).  The catalog dialect keywords match
the enum names. -/
def BDataType.sql : BDataType → String
  | .TEXT => "TEXT"
  | .INTEGER => "INTEGER"
  | .BOOLEAN => "BOOLEAN"
  | .TIMESTAMP => "TIMESTAMP"

/-- `ColumnForeignKey` from the change-event model (fields as used by
`table_info.rs` and `repository.rs`). -/
structure BColumnForeignKey where
  column_name : String
  referenced_table : String
  referenced_column : String
deriving DecidableEq, Repr

/-- `Constraint` from the change-event model: `PrimaryKey` or
`ForeignKey(referenced_table, referenced_column)`. -/
inductive BConstraint
  | PrimaryKey
  | ForeignKey (referenced_table : String) (referenced_column : String)
deriving DecidableEq, Repr

/-- `Column` from the change-event model: name, datatype, constraints. -/
structure BColumn where
  name : String
  datatype : BDataType
  constraints : List BConstraint
deriving DecidableEq, Repr

/-- `TableChangeEvents` from the change-event model, the vocabulary of
schema edits dispatched by `TableInfo::add_table_change_event`. -/
inductive BTableChangeEvents
  | ChangeTableName (new_table_name : String)
  | ChangeColumnDataType (column_name : String) (data_type : BDataType)
  | ChangeColumnName (column_name : String) (new_column_name : String)
  | RemoveColumn (column_name : String)
  | AddColumn (column_name : String) (data_type : BDataType)
  | AddForeignKey (column_foreign_key : BColumnForeignKey)
  | RemoveForeignKey (column_name : String)
  | AddPrimaryKey (column_name : String)
  | RemovePrimaryKey (column_name : String)
deriving DecidableEq, Repr

open BTableChangeEvents

/-- The in-memory state of a table-editing session that
`table_info.rs` mutates: current table name, the last-fetched column
snapshot, and the pending change-set (`table_change_events`).  The
repository handle and console observer carry no coalescing state and are
omitted. -/
structure TableInfo where
  table_name : String
  columns_info : List BColumn
  table_change_events : List BTableChangeEvents
deriving DecidableEq, Repr

/-- Predicate used by `find_existing_remove_column_event`. -/
def isRemoveColumnEventFor (column_name : String) : BTableChangeEvents → Bool
  | .RemoveColumn existing_column_name => existing_column_name == column_name
  | _ => false

/-- Predicate used by `find_existing_add_column_event`. -/
def isAddColumnEventFor (column_name : String) : BTableChangeEvents → Bool
  | .AddColumn existing_column_name _ => existing_column_name == column_name
  | _ => false

/-- Predicate used by `find_existing_change_data_type_column_event`. -/
def isChangeDataTypeEventFor (column_name : String) : BTableChangeEvents → Bool
  | .ChangeColumnDataType existing_column_name _ => existing_column_name == column_name
  | _ => false

/-- Predicate used by `find_existing_rename_column_event`: matches on the
*target* (modified) column name. -/
def isRenameColumnEventTo (column_name : String) : BTableChangeEvents → Bool
  | .ChangeColumnName _ modified_column_name => modified_column_name == column_name
  | _ => false

/-- Predicate used by `find_existing_change_table_name_event`. -/
def isChangeTableNameEvent : BTableChangeEvents → Bool
  | .ChangeTableName _ => true
  | _ => false

/-- Predicate used by `find_existing_add_primary_key_event`. -/
def isAddPrimaryKeyEventFor (column_name : String) : BTableChangeEvents → Bool
  | .AddPrimaryKey existing_column_name => existing_column_name == column_name
  | _ => false

/-- Predicate used by `find_existing_remove_primary_key_event`. -/
def isRemovePrimaryKeyEventFor (column_name : String) : BTableChangeEvents → Bool
  | .RemovePrimaryKey existing_column_name => existing_column_name == column_name
  | _ => false

/-- Predicate used by `find_existing_add_foreign_key_event`. -/
def isAddForeignKeyEventFor (column_name : String) : BTableChangeEvents → Bool
  | .AddForeignKey existing_column_foreign_key =>
      existing_column_foreign_key.column_name == column_name
  | _ => false

/-- Predicate used by `find_existing_remove_foreign_key_event`. -/
def isRemoveForeignKeyEventFor (column_name : String) : BTableChangeEvents → Bool
  | .RemoveForeignKey existing_column_name => existing_column_name == column_name
  | _ => false

/-- `TableInfo::find_existing_remove_column_event`. -/
def find_existing_remove_column_event (t : TableInfo) (column_name : String) : Option Nat :=
  t.table_change_events.findIdx? (isRemoveColumnEventFor column_name)

/-- `TableInfo::find_existing_add_column_event`. -/
def find_existing_add_column_event (t : TableInfo) (column_name : String) : Option Nat :=
  t.table_change_events.findIdx? (isAddColumnEventFor column_name)

/-- `TableInfo::find_existing_change_data_type_column_event`. -/
def find_existing_change_data_type_column_event (t : TableInfo) (column_name : String) :
    Option Nat :=
  t.table_change_events.findIdx? (isChangeDataTypeEventFor column_name)

/-- `TableInfo::find_existing_rename_column_event`. -/
def find_existing_rename_column_event (t : TableInfo) (column_name : String) : Option Nat :=
  t.table_change_events.findIdx? (isRenameColumnEventTo column_name)

/-- `TableInfo::find_existing_change_table_name_event`. -/
def find_existing_change_table_name_event (t : TableInfo) : Option Nat :=
  t.table_change_events.findIdx? isChangeTableNameEvent

/-- `TableInfo::find_existing_add_primary_key_event`. -/
def find_existing_add_primary_key_event (t : TableInfo) (column_name : String) : Option Nat :=
  t.table_change_events.findIdx? (isAddPrimaryKeyEventFor column_name)

/-- `TableInfo::find_existing_remove_primary_key_event`. -/
def find_existing_remove_primary_key_event (t : TableInfo) (column_name : String) : Option Nat :=
  t.table_change_events.findIdx? (isRemovePrimaryKeyEventFor column_name)

/-- `TableInfo::find_existing_add_foreign_key_event`. -/
def find_existing_add_foreign_key_event (t : TableInfo) (column_name : String) : Option Nat :=
  t.table_change_events.findIdx? (isAddForeignKeyEventFor column_name)

/-- `TableInfo::find_existing_remove_foreign_key_event`. -/
def find_existing_remove_foreign_key_event (t : TableInfo) (column_name : String) : Option Nat :=
  t.table_change_events.findIdx? (isRemoveForeignKeyEventFor column_name)

/-- `TableInfo::handle_add_column` (`table_info.rs` lines 93-119).  If a
`RemoveColumn` for the same name is pending, the add either cancels it
(same original datatype) or replaces it by a `ChangeColumnDataType`; when
the removed name is not an original catalog column, nothing happens at
all.  Otherwise the `AddColumn` is appended. -/
def handle_add_column (t : TableInfo) (column_name : String) (data_type : BDataType) :
    TableInfo :=
  match find_existing_remove_column_event t column_name with
  | some existing_event_index =>
    match t.table_change_events[existing_event_index]? with
    | some (.RemoveColumn original_column_name) =>
      match t.columns_info.find? (fun column => column.name == original_column_name) with
      | some original_column =>
        if data_type == original_column.datatype then
          { t with table_change_events := t.table_change_events.eraseIdx existing_event_index }
        else
          { t with table_change_events :=
              t.table_change_events.eraseIdx existing_event_index ++
                [ChangeColumnDataType column_name data_type] }
      | none => t
    | _ => t
  | none =>
    { t with table_change_events :=
        t.table_change_events ++ [AddColumn column_name data_type] }

/-- `TableInfo::handle_change_table_name` (`table_info.rs` lines 121-134).
When a rename is already pending it is removed and, unless the new name is
the current (original) table name, replaced; with no pending rename the
event is appended unconditionally. -/
def handle_change_table_name (t : TableInfo) (table_name : String) : TableInfo :=
  match find_existing_change_table_name_event t with
  | some existing_event_index =>
    if table_name == t.table_name then
      { t with table_change_events := t.table_change_events.eraseIdx existing_event_index }
    else
      { t with table_change_events :=
          t.table_change_events.eraseIdx existing_event_index ++ [ChangeTableName table_name] }
  | none =>
    { t with table_change_events := t.table_change_events ++ [ChangeTableName table_name] }

/-- `TableInfo::handle_change_column_datatype` (`table_info.rs` lines
136-181). -/
def handle_change_column_datatype (t : TableInfo) (column_name : String)
    (data_type : BDataType) : TableInfo :=
  match find_existing_change_data_type_column_event t column_name with
  | some existing_event_index =>
    match t.columns_info.find? (fun column => column.name == column_name) with
    | some column =>
      if column.datatype == data_type then
        { t with table_change_events := t.table_change_events.eraseIdx existing_event_index }
      else
        { t with table_change_events :=
            t.table_change_events.eraseIdx existing_event_index ++
              [ChangeColumnDataType column_name data_type] }
    | none =>
      { t with table_change_events :=
          t.table_change_events.eraseIdx existing_event_index ++
            [ChangeColumnDataType column_name data_type] }
  | none =>
    match find_existing_add_column_event t column_name with
    | some existing_event_index =>
      match t.table_change_events[existing_event_index]? with
      | some (.AddColumn _ added_column_data_type) =>
        if added_column_data_type != data_type then
          { t with table_change_events :=
              t.table_change_events.eraseIdx existing_event_index ++
                [AddColumn column_name data_type] }
        else t
      | _ => t
    | none =>
      { t with table_change_events :=
          t.table_change_events ++ [ChangeColumnDataType column_name data_type] }

/-- First half of `TableInfo::update_existing_rename_event`
(`table_info.rs` lines 293-303): push the collapsed rename unless it
collapses back to the original name. -/
def push_collapsed_rename (t : TableInfo) (event_index : Nat) (new_column_name : String) :
    TableInfo :=
  match t.table_change_events[event_index]? with
  | some (.ChangeColumnName original_column_name _) =>
    if original_column_name != new_column_name then
      { t with table_change_events :=
          t.table_change_events ++ [ChangeColumnName original_column_name new_column_name] }
    else t
  | _ => t

/-- `TableInfo::update_existing_rename_event` (`table_info.rs` lines
292-305): push the collapsed rename (unless it collapses to the original
name) and then remove the superseded entry. -/
def update_existing_rename_event (t : TableInfo) (event_index : Nat)
    (new_column_name : String) : TableInfo :=
  let t1 := push_collapsed_rename t event_index new_column_name
  { t1 with table_change_events := t1.table_change_events.eraseIdx event_index }

/-- `TableInfo::update_existing_add_column_event` (`table_info.rs` lines
307-319): drop the pending `AddColumn` and re-run the add-column logic
under the new name. -/
def update_existing_add_column_event (t : TableInfo) (event_index : Nat)
    (column_name : String) (new_column_name : String) : TableInfo :=
  match t.table_change_events[event_index]? with
  | some (.AddColumn _ added_data_type) =>
    handle_add_column
      { t with table_change_events := t.table_change_events.eraseIdx event_index }
      new_column_name added_data_type
  | _ => t

/-- `TableInfo::rename_existing_datatype_change_event` (`table_info.rs`
lines 321-334): re-key a pending `ChangeColumnDataType` to the renamed
column. -/
def rename_existing_datatype_change_event (t : TableInfo) (column_name : String)
    (new_column_name : String) : TableInfo :=
  match find_existing_change_data_type_column_event t column_name with
  | some event_index =>
    match t.table_change_events[event_index]? with
    | some (.ChangeColumnDataType _ data_type) =>
      { t with table_change_events :=
          t.table_change_events.eraseIdx event_index ++
            [ChangeColumnDataType new_column_name data_type] }
    | _ => t
  | none => t

/-- The if/else-if/else cascade of `TableInfo::handle_change_column_name`
(`table_info.rs` lines 188-203): collapse a chained rename, collapse a
pending add, or append the rename. -/
def collapse_or_append_rename (t1 : TableInfo) (column_name : String)
    (new_column_name : String) : TableInfo :=
  match find_existing_rename_column_event t1 column_name with
  | some existing_event_index =>
    update_existing_rename_event t1 existing_event_index new_column_name
  | none =>
    match find_existing_add_column_event t1 column_name with
    | some existing_event_index =>
      update_existing_add_column_event t1 existing_event_index column_name new_column_name
    | none =>
      { t1 with table_change_events :=
          t1.table_change_events ++ [ChangeColumnName column_name new_column_name] }

/-- The trailing block of `TableInfo::handle_change_column_name`
(`table_info.rs` lines 205-209): re-key a pending `AddPrimaryKey` to the
new column name. -/
def rekey_add_primary_key_event (t2 : TableInfo) (column_name : String)
    (new_column_name : String) : TableInfo :=
  match find_existing_add_primary_key_event t2 column_name with
  | some existing_event_index =>
    { t2 with table_change_events :=
        t2.table_change_events.eraseIdx existing_event_index ++
          [AddPrimaryKey new_column_name] }
  | none => t2

/-- `TableInfo::handle_change_column_name` (`table_info.rs` lines
183-210): early-return on a self-rename, re-key any datatype change,
collapse chained renames or pending adds, otherwise append, then re-key a
pending `AddPrimaryKey`. -/
def handle_change_column_name (t : TableInfo) (column_name : String)
    (new_column_name : String) : TableInfo :=
  if column_name == new_column_name then t
  else
    rekey_add_primary_key_event
      (collapse_or_append_rename
        (rename_existing_datatype_change_event t column_name new_column_name)
        column_name new_column_name)
      column_name new_column_name

/-- The first guard of `TableInfo::handle_remove_column` (`table_info.rs`
lines 213-215): drop a pending `AddPrimaryKey` for the removed column. -/
def drop_pending_add_primary_key (t : TableInfo) (column_name : String) : TableInfo :=
  match find_existing_add_primary_key_event t column_name with
  | some existing_event_index =>
    { t with table_change_events := t.table_change_events.eraseIdx existing_event_index }
  | none => t

/-- The second guard of `TableInfo::handle_remove_column` (`table_info.rs`
lines 216-218): drop a pending `AddForeignKey` for the removed column. -/
def drop_pending_add_foreign_key (t1 : TableInfo) (column_name : String) : TableInfo :=
  match find_existing_add_foreign_key_event t1 column_name with
  | some existing_event_index =>
    { t1 with table_change_events := t1.table_change_events.eraseIdx existing_event_index }
  | none => t1

/-- The main cascade of `TableInfo::handle_remove_column` (`table_info.rs`
lines 219-242). -/
def handle_remove_column_core (t2 : TableInfo) (column_name : String) : TableInfo :=
  match find_existing_add_column_event t2 column_name with
  | some existing_event_index =>
    { t2 with table_change_events := t2.table_change_events.eraseIdx existing_event_index }
  | none =>
    match find_existing_change_data_type_column_event t2 column_name with
    | some existing_event_index =>
      { t2 with table_change_events :=
          t2.table_change_events.eraseIdx existing_event_index ++ [RemoveColumn column_name] }
    | none =>
      match find_existing_rename_column_event t2 column_name with
      | some existing_event_index =>
        match t2.table_change_events[existing_event_index]? with
        | some (.ChangeColumnName original_column_name _) =>
          { t2 with table_change_events :=
              t2.table_change_events.eraseIdx existing_event_index ++
                [RemoveColumn original_column_name] }
        | _ => t2
      | none =>
        { t2 with table_change_events :=
            t2.table_change_events ++ [RemoveColumn column_name] }

/-- `TableInfo::handle_remove_column` (`table_info.rs` lines 212-243). -/
def handle_remove_column (t : TableInfo) (column_name : String) : TableInfo :=
  handle_remove_column_core
    (drop_pending_add_foreign_key (drop_pending_add_primary_key t column_name) column_name)
    column_name

/-- `TableInfo::handle_add_primary_key` (`table_info.rs` lines 245-254). -/
def handle_add_primary_key (t : TableInfo) (column_name : String) : TableInfo :=
  match find_existing_remove_primary_key_event t column_name with
  | some existing_event_index =>
    { t with table_change_events := t.table_change_events.eraseIdx existing_event_index }
  | none =>
    { t with table_change_events := t.table_change_events ++ [AddPrimaryKey column_name] }

/-- `TableInfo::handle_remove_primary_key` (`table_info.rs` lines 256-263). -/
def handle_remove_primary_key (t : TableInfo) (column_name : String) : TableInfo :=
  match find_existing_add_primary_key_event t column_name with
  | some existing_event_index =>
    { t with table_change_events := t.table_change_events.eraseIdx existing_event_index }
  | none =>
    { t with table_change_events := t.table_change_events ++ [RemovePrimaryKey column_name] }

/-- `TableInfo::handle_add_foreign_key` (`table_info.rs` lines 265-281). -/
def handle_add_foreign_key (t : TableInfo) (column_foreign_key : BColumnForeignKey) :
    TableInfo :=
  match find_existing_add_foreign_key_event t column_foreign_key.column_name with
  | some existing_event_index =>
    { t with table_change_events :=
        t.table_change_events.eraseIdx existing_event_index ++
          [AddForeignKey column_foreign_key] }
  | none =>
    match find_existing_remove_foreign_key_event t column_foreign_key.column_name with
    | some existing_event_index =>
      { t with table_change_events := t.table_change_events.eraseIdx existing_event_index }
    | none =>
      { t with table_change_events :=
          t.table_change_events ++ [AddForeignKey column_foreign_key] }

/-- `TableInfo::handle_remove_foreign_key` (`table_info.rs` lines 283-290). -/
def handle_remove_foreign_key (t : TableInfo) (column_name : String) : TableInfo :=
  match find_existing_add_foreign_key_event t column_name with
  | some existing_event_index =>
    { t with table_change_events := t.table_change_events.eraseIdx existing_event_index }
  | none =>
    { t with table_change_events := t.table_change_events ++ [RemoveForeignKey column_name] }

/-- `TableInfo::add_table_change_event` (`table_info.rs` lines 59-91): the
per-event dispatch of the coalescing engine (the console write after the
match is an observer side effect with no coalescing state). -/
def add_table_change_event (t : TableInfo) : BTableChangeEvents → TableInfo
  | .ChangeTableName new_table_name => handle_change_table_name t new_table_name
  | .ChangeColumnDataType column_name data_type =>
      handle_change_column_datatype t column_name data_type
  | .ChangeColumnName column_name new_column_name =>
      handle_change_column_name t column_name new_column_name
  | .RemoveColumn column_name => handle_remove_column t column_name
  | .AddColumn column_name data_type => handle_add_column t column_name data_type
  | .AddForeignKey column_foreign_key => handle_add_foreign_key t column_foreign_key
  | .RemoveForeignKey column_name => handle_remove_foreign_key t column_name
  | .AddPrimaryKey column_name => handle_add_primary_key t column_name
  | .RemovePrimaryKey column_name => handle_remove_primary_key t column_name

/-- Feeding a sequence of events one at a time into
`add_table_change_event`. -/
def applyEvents (t : TableInfo) (events : List BTableChangeEvents) : TableInfo :=
  events.foldl add_table_change_event t

/-! ## The DDL compiler (`Repository::alter_table`, `repository.rs` lines 387-505) -/

/-- The mutable compilation state threaded through the event loop of
`Repository::alter_table`: the running table name, the working primary-key
column list, the flag suppressing the explicit primary-key-constraint drop
once a primary-key column has been dropped, and the accumulated statement
texts. -/
structure AlterState where
  current_table_name : String
  primary_key_columns : List String
  run_drop_primary_constraint_query : Bool
  queries : List String
deriving DecidableEq, Repr

/-- One iteration of the event loop of `Repository::alter_table` (lines
401-468): formats at most one statement for the event, addressed to the
running table name, and updates the running state. -/
def alterStep (st : AlterState) : BTableChangeEvents → AlterState
  | .ChangeTableName new_name =>
    { st with
        queries := st.queries ++
          ["ALTER TABLE \"" ++ st.current_table_name ++ "\" RENAME TO \"" ++ new_name ++ "\""],
        current_table_name := new_name }
  | .ChangeColumnDataType column_name new_data_type =>
    { st with queries := st.queries ++
        ["ALTER TABLE \"" ++ st.current_table_name ++ "\" ALTER COLUMN \"" ++ column_name ++
          "\" TYPE " ++ new_data_type.sql ++ " USING \"" ++ column_name ++ "\"::" ++
          new_data_type.sql] }
  | .ChangeColumnName old_name new_name =>
    { st with queries := st.queries ++
        ["ALTER TABLE \"" ++ st.current_table_name ++ "\" RENAME COLUMN \"" ++ old_name ++
          "\" TO \"" ++ new_name ++ "\""] }
  | .AddColumn column_name data_type =>
    { st with queries := st.queries ++
        ["ALTER TABLE \"" ++ st.current_table_name ++ "\" ADD COLUMN \"" ++ column_name ++
          "\" " ++ data_type.sql] }
  | .RemoveColumn column_name =>
    let st1 :=
      match st.primary_key_columns.findIdx? (fun pk_name => pk_name == column_name) with
      | some existing_index =>
        { st with
            run_drop_primary_constraint_query := false,
            primary_key_columns := st.primary_key_columns.eraseIdx existing_index }
      | none => st
    { st1 with queries := st1.queries ++
        ["ALTER TABLE \"" ++ st1.current_table_name ++ "\" DROP COLUMN \"" ++ column_name ++
          "\""] }
  | .AddForeignKey column_foreign_key =>
    { st with queries := st.queries ++
        ["ALTER TABLE \"" ++ st.current_table_name ++ "\" ADD CONSTRAINT fk_" ++
          st.current_table_name ++ "_" ++ column_foreign_key.column_name ++
          " FOREIGN KEY (\"" ++ column_foreign_key.column_name ++ "\") REFERENCES \"" ++
          column_foreign_key.referenced_table ++ "\" (\"" ++
          column_foreign_key.referenced_column ++ "\")"] }
  | .RemoveForeignKey column_name =>
    { st with queries := st.queries ++
        ["ALTER TABLE \"" ++ st.current_table_name ++ "\" DROP CONSTRAINT IF EXISTS fk_" ++
          st.current_table_name ++ "_" ++ column_name] }
  | .AddPrimaryKey column_name =>
    { st with primary_key_columns := st.primary_key_columns ++ [column_name] }
  | .RemovePrimaryKey column_name =>
    match st.primary_key_columns.findIdx? (fun pk_name => pk_name == column_name) with
    | some existing_index =>
      { st with primary_key_columns := st.primary_key_columns.eraseIdx existing_index }
    | none => st

/-- The primary-key reconciliation queries appended after the event loop
(`repository.rs` lines 470-492).  `pk_constraint` is the result of the
`get_primary_key_constraint` catalog lookup for the original table name. -/
def primaryKeyReconciliationQueries (initial_primary_key_column_names : List String)
    (st : AlterState) (pk_constraint : Option String) : List String :=
  if initial_primary_key_column_names ≠ st.primary_key_columns then
    (if st.run_drop_primary_constraint_query then
      match pk_constraint with
      | some conname =>
        ["ALTER TABLE \"" ++ st.current_table_name ++ "\" DROP CONSTRAINT \"" ++ conname ++
          "\""]
      | none => []
    else []) ++
    (if st.primary_key_columns ≠ [] then
      ["ALTER TABLE \"" ++ st.current_table_name ++ "\" ADD CONSTRAINT pk_" ++
        st.current_table_name ++ " PRIMARY KEY (" ++
        String.intercalate ", " st.primary_key_columns ++ ")"]
    else [])
  else []

/-- The full statement batch compiled by `Repository::alter_table` from a
pending change-set: the per-event statements in input order followed by the
primary-key reconciliation statements. -/
def alter_table_queries (table_name : String) (table_change_events : List BTableChangeEvents)
    (initial_primary_key_column_names : List String) (pk_constraint : Option String) :
    List String :=
  (table_change_events.foldl alterStep
      ⟨table_name, initial_primary_key_column_names, true, []⟩).queries ++
    primaryKeyReconciliationQueries initial_primary_key_column_names
      (table_change_events.foldl alterStep
        ⟨table_name, initial_primary_key_column_names, true, []⟩)
      pk_constraint

/-! ## The row-level DML string builders (`repository.rs`) -/

/-- `Condition` from the change-event model, used to build equality
filters. -/
structure Condition where
  column_name : String
  data_type : BDataType
  value : String
deriving DecidableEq, Repr

/-- `Repository::get_filter_condition` (`repository.rs` lines 224-237):
the column name is interpolated bare, the value is single-quoted only for
`TEXT`. -/
def get_filter_condition (conditions : List Condition) : String :=
  String.intercalate " AND "
    (conditions.map (fun condition =>
      let value :=
        if condition.data_type == BDataType.TEXT then "'" ++ condition.value ++ "'"
        else condition.value
      condition.column_name ++ " = " ++ value))

/-- `Repository::get_updates` (`repository.rs` lines 239-252), with the
hash-map entries supplied as an explicit association list: the column name
is double-quoted, the value single-quoted only for `TEXT`. -/
def get_updates (updated_column_values : List (String × BDataType × String)) : String :=
  String.intercalate ", "
    (updated_column_values.map (fun entry =>
      let column_name := entry.1
      let data_type := entry.2.1
      let new_value := entry.2.2
      let value :=
        if data_type == BDataType.TEXT then "'" ++ new_value ++ "'" else new_value
      "\"" ++ column_name ++ "\" = " ++ value))

/-- The value emitted for one column of an `InsertRow` event
(`repository.rs` lines 306-334): an empty primary-key value is
auto-generated (next-integer subquery for `INTEGER`, random token for
`TEXT`, `NULL` fallback otherwise); any other empty value becomes `NULL`;
non-empty `TEXT` values are single-quoted and all other non-empty values
are emitted verbatim. -/
def insertValueFor (table_name : String) (primary_key_column_names : List String)
    (column_name : String) (value : String) (data_type : BDataType) : String :=
  if value == "" && primary_key_column_names.contains column_name then
    if data_type == BDataType.INTEGER then
      "(SELECT COALESCE(MAX(\"" ++ column_name ++ "\"), 0) + 1 FROM \"" ++ table_name ++ "\")"
    else if data_type == BDataType.TEXT then
      "gen_random_uuid()::TEXT"
    else
      "NULL"
  else if value == "" then "NULL"
  else if data_type == BDataType.TEXT then "'" ++ value ++ "'"
  else value

/-- The `INSERT` statement compiled for an `InsertRow` event
(`repository.rs` lines 296-341): bare column-name list, values built by
`insertValueFor`, table name double-quoted. -/
def insertRowQuery (table_name : String) (primary_key_column_names : List String)
    (column_names : List String) (values : List String) (data_types : List BDataType) :
    String :=
  let pairs := column_names.zip (values.zip data_types)
  let emitted := pairs.map (fun p =>
    (p.1, insertValueFor table_name primary_key_column_names p.1 p.2.1 p.2.2))
  "INSERT INTO \"" ++ table_name ++ "\" (" ++
    String.intercalate ", " (emitted.map Prod.fst) ++ ") VALUES (" ++
    String.intercalate ", " (emitted.map Prod.snd) ++ ")"

/-! ## Transaction execution and the session commit (`TableInfo::alter_table`) -/

/-- Modelled from the spec: the transactional execution contract of the
catalog connection (§5, §6) that `Repository::alter_table` and
`Repository::update_table_data` rely on — all statements of a batch run
inside one transaction, the first failing statement aborts the batch and
the failed transaction leaves the database state unchanged (rollback). -/
def runTransaction {α : Type} (execute : α → String → Option α) (db : α)
    (queries : List String) : Bool × α :=
  match queries.foldlM execute db with
  | some db2 => (true, db2)
  | none => (false, db)

/-- The in-memory bookkeeping performed by `TableInfo::alter_table`
(`table_info.rs` lines 408-441) after the repository call returns:
`repository_call_ok` is the result of `Repository::alter_table`, which the
code only prints — regardless of it, the session table name is updated from
any pending `ChangeTableName` event and the pending change-set is cleared. -/
def table_info_alter_table_bookkeeping (t : TableInfo) (repository_call_ok : Bool) :
    TableInfo :=
  let updated_name := t.table_change_events.foldl
    (fun name event =>
      match event with
      | ChangeTableName updated_table_name => updated_table_name
      | _ => name)
    t.table_name
  { t with table_name := updated_name, table_change_events := [] }

/-! ## Catalog schema semantics for replay (modelled) -/

/-- Modelled from the spec: the observable catalog state of the single
table under edit (§3 `TableSnapshot` plus the constraint state §4.4
manipulates) — table name, ordered columns with datatypes, the primary-key
constraint (name and member columns) and the named foreign-key
constraints `(constraint_name, column, referenced_table,
referenced_column)`. -/
structure Schema where
  table_name : String
  columns : List (String × BDataType)
  pk_name : Option String
  pk_cols : List String
  fks : List (String × String × String × String)
deriving DecidableEq, Repr

/-- The column names of a schema. -/
def Schema.colNames (s : Schema) : List String := s.columns.map Prod.fst

/-- Modelled from the spec: the effect on the catalog of the single DDL
statement that §4.2/§4.4 associate with one `SchemaChangeEvent`, applied
literally ("applying the event sequence as literal DDL", §8).  Statements
fail (`none`) exactly when the target catalog dialect would reject them:
altering, renaming or dropping an absent column, adding a duplicate
column, or adding a duplicate constraint.  Dropping a column drops the
constraints that mention it; `AddPrimaryKey`/`RemovePrimaryKey` edit the
primary-key constraint membership directly. -/
def applyDdl (s : Schema) : BTableChangeEvents → Option Schema
  | .ChangeTableName new_name => some { s with table_name := new_name }
  | .ChangeColumnDataType column_name data_type =>
    if column_name ∈ s.colNames then
      some { s with columns := s.columns.map (fun c =>
        if c.1 = column_name then (c.1, data_type) else c) }
    else none
  | .ChangeColumnName old_name new_name =>
    if old_name ∈ s.colNames ∧ new_name ∉ s.colNames then
      some { s with
        columns := s.columns.map (fun c => if c.1 = old_name then (new_name, c.2) else c),
        pk_cols := s.pk_cols.map (fun n => if n = old_name then new_name else n),
        fks := s.fks.map (fun fk =>
          if fk.2.1 = old_name then (fk.1, new_name, fk.2.2) else fk) }
    else none
  | .AddColumn column_name data_type =>
    if column_name ∈ s.colNames then none
    else some { s with columns := s.columns ++ [(column_name, data_type)] }
  | .RemoveColumn column_name =>
    if column_name ∈ s.colNames then
      some { s with
        columns := s.columns.filter (fun c => c.1 ≠ column_name),
        pk_name := if column_name ∈ s.pk_cols then none else s.pk_name,
        pk_cols := if column_name ∈ s.pk_cols then [] else s.pk_cols,
        fks := s.fks.filter (fun fk => fk.2.1 ≠ column_name) }
    else none
  | .AddForeignKey column_foreign_key =>
    let conname := "fk_" ++ s.table_name ++ "_" ++ column_foreign_key.column_name
    if column_foreign_key.column_name ∈ s.colNames ∧ conname ∉ s.fks.map Prod.fst then
      some { s with fks := s.fks ++
        [(conname, column_foreign_key.column_name, column_foreign_key.referenced_table,
          column_foreign_key.referenced_column)] }
    else none
  | .RemoveForeignKey column_name =>
    let conname := "fk_" ++ s.table_name ++ "_" ++ column_name
    some { s with fks := s.fks.filter (fun fk => fk.1 ≠ conname) }
  | .AddPrimaryKey column_name =>
    if column_name ∈ s.colNames ∧ s.pk_name = none then
      some { s with pk_name := some ("pk_" ++ s.table_name), pk_cols := [column_name] }
    else none
  | .RemovePrimaryKey column_name =>
    if column_name ∈ s.pk_cols then
      some { s with
        pk_cols := s.pk_cols.filter (fun n => n ≠ column_name),
        pk_name := if s.pk_cols.filter (fun n => n ≠ column_name) = [] then none
          else s.pk_name }
    else none

/-- Literal replay: apply every event of the uncoalesced history as its own
DDL statement. -/
def literalReplay (s : Schema) (events : List BTableChangeEvents) : Option Schema :=
  events.foldlM applyDdl s

/-- The semantic effect of executing the statement batch compiled by
`Repository::alter_table` (one statement per query-emitting event, in
input order, followed by primary-key reconciliation), mirroring the
compiler's bookkeeping of `primary_key_columns` and
`run_drop_primary_constraint_query`; the drop-constraint statement names
the constraint looked up in the pre-transaction catalog (`s₀.pk_name`). -/
def applyCompiledStep (acc : Schema × List String × Bool) (event : BTableChangeEvents) :
    Option (Schema × List String × Bool) :=
  let s := acc.1
  let pk := acc.2.1
  let run_drop := acc.2.2
  match event with
  | .AddPrimaryKey column_name => some (s, pk ++ [column_name], run_drop)
  | .RemovePrimaryKey column_name =>
    match pk.findIdx? (fun n => n == column_name) with
    | some existing_index => some (s, pk.eraseIdx existing_index, run_drop)
    | none => some (s, pk, run_drop)
  | .RemoveColumn column_name =>
    let updated :=
      match pk.findIdx? (fun n => n == column_name) with
      | some existing_index => (pk.eraseIdx existing_index, false)
      | none => (pk, run_drop)
    match applyDdl s (RemoveColumn column_name) with
    | some s2 => some (s2, updated.1, updated.2)
    | none => none
  | e =>
    match applyDdl s e with
    | some s2 => some (s2, pk, run_drop)
    | none => none

/-- Applying the compiled change-set to the snapshot: run the per-event
statements, then the primary-key reconciliation (drop the pre-transaction
constraint if still required, then add the new constraint when the working
list is non-empty). -/
def applyCompiledChangeSet (s₀ : Schema) (initial_pk : List String)
    (events : List BTableChangeEvents) : Option Schema :=
  match events.foldlM applyCompiledStep (s₀, initial_pk, true) with
  | none => none
  | some (s, pk, run_drop) =>
    if initial_pk ≠ pk then
      let afterDrop : Option Schema :=
        if run_drop then
          match s₀.pk_name with
          | some conname =>
            if s.pk_name = some conname then
              some { s with pk_name := none, pk_cols := [] }
            else none
          | none => some s
        else some s
      match afterDrop with
      | none => none
      | some s1 =>
        if pk ≠ [] then
          if s1.pk_name = none ∧ ∀ c ∈ pk, c ∈ s1.colNames then
            some { s1 with pk_name := some ("pk_" ++ s1.table_name), pk_cols := pk }
          else none
        else some s1
    else some s

/-- The columns-info snapshot a `TableInfo` session holds for a schema:
one `BColumn` per catalog column, with its primary-key marker and
foreign-key constraint. -/
def snapshotColumns (s : Schema) : List BColumn :=
  s.columns.map (fun c =>
    { name := c.1,
      datatype := c.2,
      constraints :=
        (if c.1 ∈ s.pk_cols then [BConstraint.PrimaryKey] else []) ++
        ((s.fks.filter (fun fk => fk.2.1 = c.1)).map (fun fk =>
          BConstraint.ForeignKey fk.2.2.1 fk.2.2.2)) })

/-- The `TableInfo` session opened on a snapshot: empty pending set. -/
def sessionFor (s : Schema) : TableInfo :=
  ⟨s.table_name, snapshotColumns s, []⟩

/-- The full commit pipeline of `TableInfo::alter_table`: coalesce the
event sequence into the pending change-set, and — when the pending set is
non-empty — compile it with `Repository::alter_table` and apply the batch
to the snapshot (the primary-key column list is read off the session's
`columns_info`, as in lines 410-420 of `table_info.rs`). -/
def commitPipeline (s : Schema) (events : List BTableChangeEvents) : Option Schema :=
  let session := applyEvents (sessionFor s) events
  let primary_key_column_names :=
    ((sessionFor s).columns_info.filter (fun column =>
      column.constraints.any (fun c => c matches BConstraint.PrimaryKey))).map
      (fun column => column.name)
  if session.table_change_events = [] then some s
  else applyCompiledChangeSet s primary_key_column_names session.table_change_events

/-! ## Concrete fixtures -/

/-- The default two-column snapshot `users(id INTEGER primary key, name
TEXT)` used by the repository's tests and the spec's §8 scenario. -/
def usersSchema : Schema :=
  { table_name := "users",
    columns := [("id", BDataType.INTEGER), ("name", BDataType.TEXT)],
    pk_name := some "users_pkey",
    pk_cols := ["id"],
    fks := [] }

/-- The session opened on `usersSchema`. -/
def usersSession : TableInfo := sessionFor usersSchema

/-- The event sequence of the spec's §8 scenario. -/
def scenarioEvents : List BTableChangeEvents :=
  [AddColumn "email" BDataType.TEXT,
   ChangeColumnName "name" "username",
   ChangeColumnDataType "username" BDataType.INTEGER,
   AddColumn "age" BDataType.INTEGER,
   RemoveColumn "age",
   ChangeTableName "customers"]

/-- The number of `ChangeTableName` entries in a pending change-set. -/
def countCTN (events : List BTableChangeEvents) : Nat :=
  events.countP isChangeTableNameEvent

/-- The statement `q` addresses the table by the (double-quoted)
identifier `table_name`: its text begins with `ALTER TABLE
"table_name"`. -/
def IsTablePrefixed (table_name q : String) : Prop :=
  ∃ r, q = "ALTER TABLE \"" ++ table_name ++ "\"" ++ r

/-! ## List toolkit -/

theorem findIdx?_some_spec {α : Type} (p : α → Bool) (l : List α) (i : Nat)
    (h : l.findIdx? p = some i) : ∃ a, l[i]? = some a ∧ p a := by
  induction l generalizing i with
  | nil => simp [List.findIdx?_nil] at h
  | cons b t ih =>
    rw [List.findIdx?_cons] at h
    by_cases hb : p b
    · simp [hb] at h
      exact ⟨b, by simp [← h], hb⟩
    · rw [if_neg hb, List.findIdx?_succ] at h
      simp only [Option.map_eq_some'] at h
      obtain ⟨j, hj, rfl⟩ := h
      obtain ⟨a, ha, hpa⟩ := ih j hj
      exact ⟨a, by simpa using ha, hpa⟩

theorem countP_eraseIdx_of_get {α : Type} (p : α → Bool) (l : List α) (i : Nat) (a : α)
    (h : l[i]? = some a) (hp : p a) :
    List.countP p l = List.countP p (l.eraseIdx i) + 1 := by
  induction l generalizing i with
  | nil => simp at h
  | cons b t ih =>
    cases i with
    | zero =>
      simp at h
      subst h
      simp [List.countP_cons, hp]
    | succ j =>
      simp at h
      rw [List.eraseIdx_cons_succ, List.countP_cons, List.countP_cons, ih j h]
      omega

theorem countP_eraseIdx_le {α : Type} (p : α → Bool) (l : List α) (i : Nat) :
    List.countP p (l.eraseIdx i) ≤ List.countP p l :=
  (List.eraseIdx_sublist l i).countP_le p

/-! ## C4: the §8 coalescing scenario -/

/-- C4: from the default snapshot `users(id INTEGER primary key, name
TEXT)` with an empty pending set, the six-event scenario coalesces to
exactly the four surviving entries, the `age` add/remove pair cancelling. -/
theorem scenario_coalesces_to_expected :
    (applyEvents usersSession scenarioEvents).table_change_events =
      [AddColumn "email" BDataType.TEXT,
       ChangeColumnName "name" "username",
       ChangeColumnDataType "username" BDataType.INTEGER,
       ChangeTableName "customers"] := by decide

/-! ## C1: replay-equivalence -/

/-- C1 counterexample: removing the primary-key column `id` and adding it
back with its original type coalesces to an empty pending set, so the
commit pipeline leaves the snapshot (primary key included) unchanged,
while literally replaying the two statements destroys the primary-key
constraint and moves the column to the end — the two resulting schema
states differ. -/
theorem replay_equivalence_counterexample :
    commitPipeline usersSchema [RemoveColumn "id", AddColumn "id" BDataType.INTEGER] =
      some usersSchema ∧
    literalReplay usersSchema [RemoveColumn "id", AddColumn "id" BDataType.INTEGER] =
      some { table_name := "users",
             columns := [("name", BDataType.TEXT), ("id", BDataType.INTEGER)],
             pk_name := none, pk_cols := [], fks := [] } ∧
    commitPipeline usersSchema [RemoveColumn "id", AddColumn "id" BDataType.INTEGER] ≠
      literalReplay usersSchema [RemoveColumn "id", AddColumn "id" BDataType.INTEGER] := by
  refine ⟨by decide, by decide, by decide⟩

/-- C1 (amended): replay-equivalence does hold for the spec's §8 scenario
sequence and every prefix of it — compiling the coalesced pending set and
applying it to the original `users` snapshot agrees with replaying the
uncoalesced prefix as literal DDL. -/
theorem replay_equivalence_scenario_prefixes (k : Nat) :
    commitPipeline usersSchema (scenarioEvents.take k) =
      literalReplay usersSchema (scenarioEvents.take k) := by
  by_cases h : k < 6
  · interval_cases k <;> decide
  · have h6 : scenarioEvents.length ≤ k := by
      simp only [scenarioEvents, List.length_cons, List.length_nil]
      omega
    rw [List.take_of_length_le h6]
    decide

/-! ## C3: transactional failure and the pending set -/

/-- C3 counterexample: after a failed repository call
(`repository_call_ok = false`) the session bookkeeping of
`TableInfo::alter_table` still clears the pending change-set — it is not
left intact for a retry. -/
theorem pending_cleared_on_failure_counterexample :
    (table_info_alter_table_bookkeeping
        ⟨"users", [], [AddColumn "email" BDataType.TEXT]⟩ false).table_change_events = [] ∧
    ([] : List BTableChangeEvents) ≠ [AddColumn "email" BDataType.TEXT] := by
  exact ⟨rfl, by decide⟩

/-- C3 (amended): a failed commit has no observable effect on the database
(the transaction rolls back to the pre-commit state), but the table
session clears its `PendingChangeSet` (and applies any pending table
rename to its in-memory name) regardless of the commit result. -/
theorem failed_commit_rolls_back_but_clears_pending :
    (∀ {α : Type} (execute : α → String → Option α) (db : α) (queries : List String),
        (runTransaction execute db queries).1 = false →
        (runTransaction execute db queries).2 = db) ∧
    (∀ (t : TableInfo) (repository_call_ok : Bool),
        (table_info_alter_table_bookkeeping t repository_call_ok).table_change_events = []) := by
  constructor
  · intro α execute db queries h
    unfold runTransaction at h ⊢
    cases hq : queries.foldlM execute db with
    | none => simp [hq]
    | some db2 => rw [hq] at h; simp at h
  · intro t repository_call_ok
    rfl

/-- Witness for the amended C3 theorem: a batch whose first statement
fails leaves the database value unchanged. -/
theorem failed_commit_witness :
    (runTransaction (fun (_ : Nat) (_ : String) => none) 0 ["ALTER TABLE \"users\""]).2 = 0 :=
  failed_commit_rolls_back_but_clears_pending.1
    (fun (_ : Nat) (_ : String) => none) 0 ["ALTER TABLE \"users\""] rfl

/-! ## C9: insert value generation -/

/-- C9 counterexample: a non-primary-key `TEXT` column submitted with an
empty value is emitted as `NULL`, not as a quoted (empty) text value. -/
theorem insert_value_counterexample :
    insertValueFor "users" ["id"] "note" "" BDataType.TEXT = "NULL" ∧
    "NULL" ≠ "''" := by
  exact ⟨rfl, by decide⟩

/-- C9 (amended): full case analysis of the value emitted for one insert
column: an empty primary-key value is auto-generated (next-integer
subquery for `INTEGER`, random-token expression for `TEXT`, `NULL` for
other key types); any other empty value is emitted as `NULL`; non-empty
`TEXT` values are quoted and all other non-empty values verbatim. -/
theorem insert_value_characterization (table_name : String)
    (primary_key_column_names : List String) (column_name value : String)
    (data_type : BDataType) :
    (value = "" → primary_key_column_names.contains column_name = true →
      data_type = BDataType.INTEGER →
      insertValueFor table_name primary_key_column_names column_name value data_type =
        "(SELECT COALESCE(MAX(\"" ++ column_name ++ "\"), 0) + 1 FROM \"" ++ table_name ++
          "\")") ∧
    (value = "" → primary_key_column_names.contains column_name = true →
      data_type = BDataType.TEXT →
      insertValueFor table_name primary_key_column_names column_name value data_type =
        "gen_random_uuid()::TEXT") ∧
    (value = "" → primary_key_column_names.contains column_name = true →
      data_type ≠ BDataType.INTEGER → data_type ≠ BDataType.TEXT →
      insertValueFor table_name primary_key_column_names column_name value data_type =
        "NULL") ∧
    (value = "" → primary_key_column_names.contains column_name = false →
      insertValueFor table_name primary_key_column_names column_name value data_type =
        "NULL") ∧
    (value ≠ "" → data_type = BDataType.TEXT →
      insertValueFor table_name primary_key_column_names column_name value data_type =
        "'" ++ value ++ "'") ∧
    (value ≠ "" → data_type ≠ BDataType.TEXT →
      insertValueFor table_name primary_key_column_names column_name value data_type =
        value) := by
  refine ⟨?_, ?_, ?_, ?_, ?_, ?_⟩
  · intro h1 h2 h3
    simp at h2
    simp [insertValueFor, h1, h2, h3]
  · intro h1 h2 h3
    simp at h2
    simp [insertValueFor, h1, h2, h3]
  · intro h1 h2 h3 h4
    simp at h2
    simp [insertValueFor, h1, h2, h3, h4]
  · intro h1 h2
    simp at h2
    simp [insertValueFor, h1, h2]
  · intro h1 h2
    simp [insertValueFor, h1, h2]
  · intro h1 h2
    simp [insertValueFor, h1, h2]

/-- Witness for the amended C9 theorem: the empty-valued integer primary
key of `users` receives the next-integer subquery. -/
theorem insert_value_witness :
    insertValueFor "users" ["id"] "id" "" BDataType.INTEGER =
      "(SELECT COALESCE(MAX(\"" ++ "id" ++ "\"), 0) + 1 FROM \"" ++ "users" ++ "\")" :=
  (insert_value_characterization "users" ["id"] "id" "" BDataType.INTEGER).1 rfl rfl rfl

/-! ## C10: silently discarded AddColumn -/

/-- C10: when a `RemoveColumn(c)` is pending but `c` is not a column of the
snapshot, `handle_add_column c t` leaves the whole session state unchanged
— the add intent is silently discarded. -/
theorem add_column_silently_discarded (t : TableInfo) (column_name : String)
    (data_type : BDataType)
    (hmem : RemoveColumn column_name ∈ t.table_change_events)
    (hcol : ∀ col ∈ t.columns_info, col.name ≠ column_name) :
    handle_add_column t column_name data_type = t := by
  unfold handle_add_column find_existing_remove_column_event
  cases hfind : t.table_change_events.findIdx? (isRemoveColumnEventFor column_name) with
  | none =>
    have := List.findIdx?_eq_none_iff.mp hfind _ hmem
    simp [isRemoveColumnEventFor] at this
  | some i =>
    obtain ⟨a, ha, hpa⟩ := findIdx?_some_spec _ _ _ hfind
    cases a with
    | RemoveColumn original_column_name =>
      have horig : original_column_name = column_name := by
        simpa [isRemoveColumnEventFor] using hpa
      subst horig
      have hnone : t.columns_info.find?
          (fun column => column.name == original_column_name) = none := by
        refine List.find?_eq_none.mpr ?_
        intro col hc
        simpa using hcol col hc
      simp [ha, hnone]
    | ChangeTableName x => simp [isRemoveColumnEventFor] at hpa
    | ChangeColumnDataType x y => simp [isRemoveColumnEventFor] at hpa
    | ChangeColumnName x y => simp [isRemoveColumnEventFor] at hpa
    | AddColumn x y => simp [isRemoveColumnEventFor] at hpa
    | AddForeignKey x => simp [isRemoveColumnEventFor] at hpa
    | RemoveForeignKey x => simp [isRemoveColumnEventFor] at hpa
    | AddPrimaryKey x => simp [isRemoveColumnEventFor] at hpa
    | RemovePrimaryKey x => simp [isRemoveColumnEventFor] at hpa

/-- Witness for C10: a pending removal of the absent column `ghost`
swallows a subsequent `AddColumn(ghost, TEXT)`. -/
theorem add_column_silently_discarded_witness :
    handle_add_column ⟨"users", [], [RemoveColumn "ghost"]⟩ "ghost" BDataType.TEXT =
      ⟨"users", [], [RemoveColumn "ghost"]⟩ :=
  add_column_silently_discarded ⟨"users", [], [RemoveColumn "ghost"]⟩ "ghost" BDataType.TEXT
    (by decide) (by intro col hc; simp at hc)

/-! ## C7: pending-set cardinality invariants -/

theorem countCTN_append_single (l : List BTableChangeEvents) (e : BTableChangeEvents)
    (he : isChangeTableNameEvent e = false) : countCTN (l ++ [e]) = countCTN l := by
  simp [countCTN, List.countP_append, List.countP_cons, he]

theorem countCTN_append_ctn (l : List BTableChangeEvents) (n : String) :
    countCTN (l ++ [ChangeTableName n]) = countCTN l + 1 := by
  simp [countCTN, List.countP_append, List.countP_cons, isChangeTableNameEvent]

theorem countCTN_eraseIdx_append_le (l : List BTableChangeEvents) (i : Nat)
    (e : BTableChangeEvents) (he : isChangeTableNameEvent e = false) :
    countCTN (l.eraseIdx i ++ [e]) ≤ countCTN l := by
  rw [countCTN_append_single _ _ he]
  exact countP_eraseIdx_le _ l i

theorem countCTN_handle_add_column_le (t : TableInfo) (c : String) (dt : BDataType) :
    countCTN (handle_add_column t c dt).table_change_events ≤
      countCTN t.table_change_events := by
  unfold handle_add_column
  repeat' split
  all_goals
    first
      | exact le_rfl
      | exact countP_eraseIdx_le _ _ _
      | exact countCTN_eraseIdx_append_le _ _ _ rfl
      | exact le_of_eq (countCTN_append_single _ _ rfl)

theorem countCTN_handle_change_column_datatype_le (t : TableInfo) (c : String)
    (dt : BDataType) :
    countCTN (handle_change_column_datatype t c dt).table_change_events ≤
      countCTN t.table_change_events := by
  unfold handle_change_column_datatype
  repeat' split
  all_goals
    first
      | exact le_rfl
      | exact countP_eraseIdx_le _ _ _
      | exact countCTN_eraseIdx_append_le _ _ _ rfl
      | exact le_of_eq (countCTN_append_single _ _ rfl)

theorem countCTN_rename_existing_datatype_le (t : TableInfo) (c n : String) :
    countCTN (rename_existing_datatype_change_event t c n).table_change_events ≤
      countCTN t.table_change_events := by
  unfold rename_existing_datatype_change_event
  repeat' split
  all_goals
    first
      | exact le_rfl
      | exact countCTN_eraseIdx_append_le _ _ _ rfl

theorem countCTN_update_existing_rename_le (t : TableInfo) (i : Nat) (n : String) :
    countCTN (update_existing_rename_event t i n).table_change_events ≤
      countCTN t.table_change_events := by
  unfold update_existing_rename_event push_collapsed_rename
  repeat' split
  all_goals
    first
      | exact countP_eraseIdx_le _ _ _
      | exact le_trans (countP_eraseIdx_le _ _ _)
          (le_of_eq (countCTN_append_single _ _ rfl))

theorem countCTN_update_existing_add_column_le (t : TableInfo) (i : Nat) (cn nn : String) :
    countCTN (update_existing_add_column_event t i cn nn).table_change_events ≤
      countCTN t.table_change_events := by
  unfold update_existing_add_column_event
  repeat' split
  all_goals
    first
      | exact le_rfl
      | exact le_trans (countCTN_handle_add_column_le _ _ _) (countP_eraseIdx_le _ _ _)

theorem countCTN_collapse_or_append_rename_le (t : TableInfo) (cn nn : String) :
    countCTN (collapse_or_append_rename t cn nn).table_change_events ≤
      countCTN t.table_change_events := by
  unfold collapse_or_append_rename
  repeat' split
  all_goals
    first
      | exact countCTN_update_existing_rename_le _ _ _
      | exact countCTN_update_existing_add_column_le _ _ _ _
      | exact le_of_eq (countCTN_append_single _ _ rfl)

theorem countCTN_rekey_add_primary_key_le (t : TableInfo) (cn nn : String) :
    countCTN (rekey_add_primary_key_event t cn nn).table_change_events ≤
      countCTN t.table_change_events := by
  unfold rekey_add_primary_key_event
  repeat' split
  all_goals
    first
      | exact le_rfl
      | exact countCTN_eraseIdx_append_le _ _ _ rfl

theorem countCTN_handle_change_column_name_le (t : TableInfo) (cn nn : String) :
    countCTN (handle_change_column_name t cn nn).table_change_events ≤
      countCTN t.table_change_events := by
  unfold handle_change_column_name
  split
  · exact le_rfl
  · exact le_trans (countCTN_rekey_add_primary_key_le _ _ _)
      (le_trans (countCTN_collapse_or_append_rename_le _ _ _)
        (countCTN_rename_existing_datatype_le _ _ _))

theorem countCTN_drop_pending_add_primary_key_le (t : TableInfo) (c : String) :
    countCTN (drop_pending_add_primary_key t c).table_change_events ≤
      countCTN t.table_change_events := by
  unfold drop_pending_add_primary_key
  repeat' split
  all_goals first | exact le_rfl | exact countP_eraseIdx_le _ _ _

theorem countCTN_drop_pending_add_foreign_key_le (t : TableInfo) (c : String) :
    countCTN (drop_pending_add_foreign_key t c).table_change_events ≤
      countCTN t.table_change_events := by
  unfold drop_pending_add_foreign_key
  repeat' split
  all_goals first | exact le_rfl | exact countP_eraseIdx_le _ _ _

theorem countCTN_handle_remove_column_core_le (t : TableInfo) (c : String) :
    countCTN (handle_remove_column_core t c).table_change_events ≤
      countCTN t.table_change_events := by
  unfold handle_remove_column_core
  repeat' split
  all_goals
    first
      | exact le_rfl
      | exact countP_eraseIdx_le _ _ _
      | exact countCTN_eraseIdx_append_le _ _ _ rfl
      | exact le_of_eq (countCTN_append_single _ _ rfl)

theorem countCTN_handle_remove_column_le (t : TableInfo) (c : String) :
    countCTN (handle_remove_column t c).table_change_events ≤
      countCTN t.table_change_events := by
  unfold handle_remove_column
  exact le_trans (countCTN_handle_remove_column_core_le _ _)
    (le_trans (countCTN_drop_pending_add_foreign_key_le _ _)
      (countCTN_drop_pending_add_primary_key_le _ _))

theorem countCTN_handle_add_primary_key_le (t : TableInfo) (c : String) :
    countCTN (handle_add_primary_key t c).table_change_events ≤
      countCTN t.table_change_events := by
  unfold handle_add_primary_key
  repeat' split
  all_goals
    first
      | exact countP_eraseIdx_le _ _ _
      | exact le_of_eq (countCTN_append_single _ _ rfl)

theorem countCTN_handle_remove_primary_key_le (t : TableInfo) (c : String) :
    countCTN (handle_remove_primary_key t c).table_change_events ≤
      countCTN t.table_change_events := by
  unfold handle_remove_primary_key
  repeat' split
  all_goals
    first
      | exact countP_eraseIdx_le _ _ _
      | exact le_of_eq (countCTN_append_single _ _ rfl)

theorem countCTN_handle_add_foreign_key_le (t : TableInfo) (fk : BColumnForeignKey) :
    countCTN (handle_add_foreign_key t fk).table_change_events ≤
      countCTN t.table_change_events := by
  unfold handle_add_foreign_key
  repeat' split
  all_goals
    first
      | exact countP_eraseIdx_le _ _ _
      | exact countCTN_eraseIdx_append_le _ _ _ rfl
      | exact le_of_eq (countCTN_append_single _ _ rfl)

theorem countCTN_handle_remove_foreign_key_le (t : TableInfo) (c : String) :
    countCTN (handle_remove_foreign_key t c).table_change_events ≤
      countCTN t.table_change_events := by
  unfold handle_remove_foreign_key
  repeat' split
  all_goals
    first
      | exact countP_eraseIdx_le _ _ _
      | exact le_of_eq (countCTN_append_single _ _ rfl)

theorem countCTN_handle_change_table_name (t : TableInfo) (n : String)
    (h : countCTN t.table_change_events ≤ 1) :
    countCTN (handle_change_table_name t n).table_change_events ≤ 1 := by
  unfold handle_change_table_name find_existing_change_table_name_event
  cases hfind : t.table_change_events.findIdx? isChangeTableNameEvent with
  | none =>
    have h0 : countCTN t.table_change_events = 0 :=
      List.countP_eq_zero.mpr (fun a ha => by
        simpa using List.findIdx?_eq_none_iff.mp hfind a ha)
    simp only []
    show countCTN (t.table_change_events ++ [ChangeTableName n]) ≤ 1
    rw [countCTN_append_ctn, h0]
  | some i =>
    obtain ⟨a, ha, hpa⟩ := findIdx?_some_spec _ _ _ hfind
    have hdec : countCTN t.table_change_events =
        countCTN (t.table_change_events.eraseIdx i) + 1 :=
      countP_eraseIdx_of_get _ _ _ _ ha hpa
    simp only []
    by_cases hn : (n == t.table_name) = true
    · rw [if_pos hn]
      show countCTN (t.table_change_events.eraseIdx i) ≤ 1
      omega
    · rw [if_neg hn]
      show countCTN (t.table_change_events.eraseIdx i ++ [ChangeTableName n]) ≤ 1
      rw [countCTN_append_ctn]
      omega

theorem countCTN_add_event_le_one (t : TableInfo) (e : BTableChangeEvents)
    (h : countCTN t.table_change_events ≤ 1) :
    countCTN (add_table_change_event t e).table_change_events ≤ 1 := by
  cases e with
  | ChangeTableName n => exact countCTN_handle_change_table_name t n h
  | ChangeColumnDataType c dt =>
    exact le_trans (countCTN_handle_change_column_datatype_le t c dt) h
  | ChangeColumnName c n => exact le_trans (countCTN_handle_change_column_name_le t c n) h
  | RemoveColumn c => exact le_trans (countCTN_handle_remove_column_le t c) h
  | AddColumn c dt => exact le_trans (countCTN_handle_add_column_le t c dt) h
  | AddForeignKey fk => exact le_trans (countCTN_handle_add_foreign_key_le t fk) h
  | RemoveForeignKey c => exact le_trans (countCTN_handle_remove_foreign_key_le t c) h
  | AddPrimaryKey c => exact le_trans (countCTN_handle_add_primary_key_le t c) h
  | RemovePrimaryKey c => exact le_trans (countCTN_handle_remove_primary_key_le t c) h

/-- C7 counterexample: from the `users` snapshot, removing `name`, then
changing its type, then re-adding it with a different type leaves two
`ChangeColumnDataType` entries for the same column in the pending set. -/
theorem duplicate_datatype_events_counterexample :
    (applyEvents usersSession
      [RemoveColumn "name", ChangeColumnDataType "name" BDataType.INTEGER,
       AddColumn "name" BDataType.BOOLEAN]).table_change_events =
      [ChangeColumnDataType "name" BDataType.INTEGER,
       ChangeColumnDataType "name" BDataType.BOOLEAN] ∧
    ¬ (List.countP (isChangeDataTypeEventFor "name")
        (applyEvents usersSession
          [RemoveColumn "name", ChangeColumnDataType "name" BDataType.INTEGER,
           AddColumn "name" BDataType.BOOLEAN]).table_change_events ≤ 1) := by
  exact ⟨by decide, by decide⟩

/-- C7 (amended): after every sequence of `add_table_change_event` calls
starting from a pending set with at most one `ChangeTableName` entry (in
particular from the empty set), the pending set still contains at most one
`ChangeTableName` entry.  (The per-column uniqueness of
`ChangeColumnDataType` entries claimed alongside it is refuted by the
counterexample.) -/
theorem at_most_one_rename_table_entry (t : TableInfo)
    (events : List BTableChangeEvents) (h : countCTN t.table_change_events ≤ 1) :
    countCTN (applyEvents t events).table_change_events ≤ 1 := by
  induction events generalizing t with
  | nil => exact h
  | cons e es ih => exact ih _ (countCTN_add_event_le_one t e h)

/-- Witness for the amended C7 theorem: two successive table renames from
the fresh `users` session leave a single `ChangeTableName` entry. -/
theorem at_most_one_rename_table_entry_witness :
    countCTN (applyEvents usersSession
      [ChangeTableName "customers", ChangeTableName "clients"]).table_change_events ≤ 1 :=
  at_most_one_rename_table_entry usersSession
    [ChangeTableName "customers", ChangeTableName "clients"] (by decide)

/-! ## C5: idempotent no-ops -/

/-- C5 counterexample: with an empty pending set, renaming the table to
its own current name *does* add a `ChangeTableName` entry (the no-op check
only runs when a rename entry is already pending). -/
theorem rename_table_to_own_name_counterexample :
    usersSession.table_name = "users" ∧
    usersSession.table_change_events = [] ∧
    (handle_change_table_name usersSession "users").table_change_events =
      [ChangeTableName "users"] := by
  exact ⟨rfl, rfl, by decide⟩

/-- C5 (amended): renaming a column to its own name never changes the
session state; `AddColumn(c,t)` immediately followed by `RemoveColumn(c)`
from an empty pending set yields an empty pending set; renaming the table
to its current name removes a pending `ChangeTableName` entry when one
exists, but appends a `ChangeTableName` entry when none is pending. -/
theorem idempotent_noop_rules :
    (∀ (t : TableInfo) (c : String), handle_change_column_name t c c = t) ∧
    (∀ (t : TableInfo) (c : String) (dt : BDataType), t.table_change_events = [] →
      (applyEvents t [AddColumn c dt, RemoveColumn c]).table_change_events = []) ∧
    (∀ t : TableInfo, find_existing_change_table_name_event t = none →
      handle_change_table_name t t.table_name =
        { t with table_change_events :=
            t.table_change_events ++ [ChangeTableName t.table_name] }) ∧
    (∀ (t : TableInfo) (i : Nat), find_existing_change_table_name_event t = some i →
      handle_change_table_name t t.table_name =
        { t with table_change_events := t.table_change_events.eraseIdx i }) := by
  refine ⟨?_, ?_, ?_, ?_⟩
  · intro t c
    simp [handle_change_column_name]
  · intro t c dt h0
    simp [applyEvents, add_table_change_event, handle_add_column, handle_remove_column,
      drop_pending_add_primary_key, drop_pending_add_foreign_key, handle_remove_column_core,
      find_existing_remove_column_event, find_existing_add_primary_key_event,
      find_existing_add_foreign_key_event, find_existing_add_column_event,
      isRemoveColumnEventFor, isAddPrimaryKeyEventFor, isAddForeignKeyEventFor,
      isAddColumnEventFor, List.findIdx?_cons, List.findIdx?_nil, h0]
  · intro t h
    unfold handle_change_table_name
    rw [h]
  · intro t i h
    unfold handle_change_table_name
    rw [h]
    simp

/-- Witness for the amended C5 theorem: adding and immediately removing an
`age` column on the fresh `users` session leaves the pending set empty. -/
theorem idempotent_noop_rules_witness :
    (applyEvents usersSession
      [AddColumn "age" BDataType.INTEGER, RemoveColumn "age"]).table_change_events = [] :=
  idempotent_noop_rules.2.1 usersSession "age" BDataType.INTEGER rfl

/-! ## C6: chained rename collapse -/

/-- C6: from an empty pending set, `RenameColumn(a,b)` then
`RenameColumn(b,c)` with `a`, `b`, `c` pairwise distinct yields exactly
the single entry `RenameColumn(a,c)`, and `RenameColumn(a,b)` then
`RenameColumn(b,a)` yields an empty pending set. -/
theorem chained_rename_collapse (t : TableInfo) (a b c : String)
    (h0 : t.table_change_events = []) (hab : a ≠ b) (hbc : b ≠ c) (hac : a ≠ c) :
    (applyEvents t [ChangeColumnName a b, ChangeColumnName b c]).table_change_events =
      [ChangeColumnName a c] ∧
    (applyEvents t [ChangeColumnName a b, ChangeColumnName b a]).table_change_events =
      [] := by
  constructor
  · simp [applyEvents, add_table_change_event, handle_change_column_name,
      rename_existing_datatype_change_event, collapse_or_append_rename,
      rekey_add_primary_key_event, update_existing_rename_event, push_collapsed_rename,
      update_existing_add_column_event, handle_add_column,
      find_existing_change_data_type_column_event, find_existing_rename_column_event,
      find_existing_add_column_event, find_existing_add_primary_key_event,
      find_existing_remove_column_event,
      isChangeDataTypeEventFor, isRenameColumnEventTo, isAddColumnEventFor,
      isAddPrimaryKeyEventFor, isRemoveColumnEventFor,
      List.findIdx?_cons, List.findIdx?_nil, h0, hab, hbc, hac, Ne.symm hab]
  · simp [applyEvents, add_table_change_event, handle_change_column_name,
      rename_existing_datatype_change_event, collapse_or_append_rename,
      rekey_add_primary_key_event, update_existing_rename_event, push_collapsed_rename,
      update_existing_add_column_event, handle_add_column,
      find_existing_change_data_type_column_event, find_existing_rename_column_event,
      find_existing_add_column_event, find_existing_add_primary_key_event,
      find_existing_remove_column_event,
      isChangeDataTypeEventFor, isRenameColumnEventTo, isAddColumnEventFor,
      isAddPrimaryKeyEventFor, isRemoveColumnEventFor,
      List.findIdx?_cons, List.findIdx?_nil, h0, hab, Ne.symm hab]

/-- Witness for C6: the collapse on concrete column names from the fresh
`users` session. -/
theorem chained_rename_collapse_witness :
    (applyEvents usersSession
      [ChangeColumnName "name" "fullname",
       ChangeColumnName "fullname" "display_name"]).table_change_events =
      [ChangeColumnName "name" "display_name"] :=
  (chained_rename_collapse usersSession "name" "fullname" "display_name" rfl
    (by decide) (by decide) (by decide)).1

/-! ## C2: compilation order and table addressing -/

theorem alterStep_nonctn_shape (st : AlterState) (e : BTableChangeEvents)
    (he : isChangeTableNameEvent e = false) :
    (alterStep st e).current_table_name = st.current_table_name ∧
    ∃ qe, (alterStep st e).queries = st.queries ++ qe ∧
      ∀ q ∈ qe, IsTablePrefixed st.current_table_name q := by
  cases e with
  | ChangeTableName n => simp [isChangeTableNameEvent] at he
  | ChangeColumnDataType c dt =>
    refine ⟨rfl, _, rfl, ?_⟩
    intro q hq
    simp only [List.mem_singleton] at hq
    subst hq
    exact ⟨" ALTER COLUMN \"" ++ c ++ "\" TYPE " ++ dt.sql ++ " USING \"" ++ c ++ "\"::" ++
        dt.sql, by
      simp only [show ("\" ALTER COLUMN \"" : String) = "\"" ++ " ALTER COLUMN \"" from rfl,
        String.append_assoc]⟩
  | ChangeColumnName old_name new_name =>
    refine ⟨rfl, _, rfl, ?_⟩
    intro q hq
    simp only [List.mem_singleton] at hq
    subst hq
    exact ⟨" RENAME COLUMN \"" ++ old_name ++ "\" TO \"" ++ new_name ++ "\"", by
      simp only [show ("\" RENAME COLUMN \"" : String) = "\"" ++ " RENAME COLUMN \""
          from rfl,
        String.append_assoc]⟩
  | AddColumn c dt =>
    refine ⟨rfl, _, rfl, ?_⟩
    intro q hq
    simp only [List.mem_singleton] at hq
    subst hq
    exact ⟨" ADD COLUMN \"" ++ c ++ "\" " ++ dt.sql, by
      simp only [show ("\" ADD COLUMN \"" : String) = "\"" ++ " ADD COLUMN \"" from rfl,
        String.append_assoc]⟩
  | RemoveColumn c =>
    cases hfind : st.primary_key_columns.findIdx? (fun pk_name => pk_name == c) with
    | none =>
      refine ⟨by simp [alterStep, hfind],
        ["ALTER TABLE \"" ++ st.current_table_name ++ "\" DROP COLUMN \"" ++ c ++ "\""],
        by simp [alterStep, hfind], ?_⟩
      intro q hq
      simp only [List.mem_singleton] at hq
      subst hq
      exact ⟨" DROP COLUMN \"" ++ c ++ "\"", by
        simp only [show ("\" DROP COLUMN \"" : String) = "\"" ++ " DROP COLUMN \"" from rfl,
          String.append_assoc]⟩
    | some i =>
      refine ⟨by simp [alterStep, hfind],
        ["ALTER TABLE \"" ++ st.current_table_name ++ "\" DROP COLUMN \"" ++ c ++ "\""],
        by simp [alterStep, hfind], ?_⟩
      intro q hq
      simp only [List.mem_singleton] at hq
      subst hq
      exact ⟨" DROP COLUMN \"" ++ c ++ "\"", by
        simp only [show ("\" DROP COLUMN \"" : String) = "\"" ++ " DROP COLUMN \"" from rfl,
          String.append_assoc]⟩
  | AddForeignKey fk =>
    refine ⟨rfl, _, rfl, ?_⟩
    intro q hq
    simp only [List.mem_singleton] at hq
    subst hq
    exact ⟨" ADD CONSTRAINT fk_" ++ st.current_table_name ++ "_" ++ fk.column_name ++
        " FOREIGN KEY (\"" ++ fk.column_name ++ "\") REFERENCES \"" ++
        fk.referenced_table ++ "\" (\"" ++ fk.referenced_column ++ "\")", by
      simp only [show ("\" ADD CONSTRAINT fk_" : String) = "\"" ++ " ADD CONSTRAINT fk_"
          from rfl,
        String.append_assoc]⟩
  | RemoveForeignKey c =>
    refine ⟨rfl, _, rfl, ?_⟩
    intro q hq
    simp only [List.mem_singleton] at hq
    subst hq
    exact ⟨" DROP CONSTRAINT IF EXISTS fk_" ++ st.current_table_name ++ "_" ++ c, by
      simp only [show ("\" DROP CONSTRAINT IF EXISTS fk_" : String) =
          "\"" ++ " DROP CONSTRAINT IF EXISTS fk_" from rfl,
        String.append_assoc]⟩
  | AddPrimaryKey c =>
    exact ⟨rfl, [], by simp [alterStep], by simp⟩
  | RemovePrimaryKey c =>
    cases hfind : st.primary_key_columns.findIdx? (fun pk_name => pk_name == c) with
    | none => exact ⟨by simp [alterStep, hfind], [], by simp [alterStep, hfind], by simp⟩
    | some i => exact ⟨by simp [alterStep, hfind], [], by simp [alterStep, hfind], by simp⟩

theorem alterFold_nonctn (l : List BTableChangeEvents) (st : AlterState)
    (hl : ∀ e ∈ l, isChangeTableNameEvent e = false) :
    (List.foldl alterStep st l).current_table_name = st.current_table_name ∧
    ∃ D, (List.foldl alterStep st l).queries = st.queries ++ D ∧
      ∀ q ∈ D, IsTablePrefixed st.current_table_name q := by
  induction l generalizing st with
  | nil => exact ⟨rfl, [], by simp, by simp⟩
  | cons e es ih =>
    obtain ⟨hcur, qe, hq, hpre⟩ := alterStep_nonctn_shape st e (hl e (by simp))
    obtain ⟨hcur2, D, hD, hpre2⟩ := ih (alterStep st e) (fun x hx => hl x (by simp [hx]))
    refine ⟨by rw [List.foldl_cons, hcur2, hcur], qe ++ D, ?_, ?_⟩
    · rw [List.foldl_cons, hD, hq, List.append_assoc]
    · intro q hq2
      rcases List.mem_append.mp hq2 with h | h
      · exact hpre q h
      · have h3 := hpre2 q h
        rwa [hcur] at h3

theorem pk_reconciliation_prefixed (pk : List String) (st : AlterState)
    (pkc : Option String) :
    ∀ q ∈ primaryKeyReconciliationQueries pk st pkc,
      IsTablePrefixed st.current_table_name q := by
  intro q hq
  unfold primaryKeyReconciliationQueries at hq
  by_cases hne : pk ≠ st.primary_key_columns
  · rw [if_pos hne] at hq
    rcases List.mem_append.mp hq with h | h
    · split at h
      · split at h
        · rename_i conname
          simp only [List.mem_singleton] at h
          subst h
          exact ⟨" DROP CONSTRAINT \"" ++ conname ++ "\"", by
            simp only [show ("\" DROP CONSTRAINT \"" : String) =
                "\"" ++ " DROP CONSTRAINT \"" from rfl,
              String.append_assoc]⟩
        · simp at h
      · simp at h
    · split at h
      · simp only [List.mem_singleton] at h
        subst h
        exact ⟨" ADD CONSTRAINT pk_" ++ st.current_table_name ++ " PRIMARY KEY (" ++
            String.intercalate ", " st.primary_key_columns ++ ")", by
          simp only [show ("\" ADD CONSTRAINT pk_" : String) =
              "\"" ++ " ADD CONSTRAINT pk_" from rfl,
            String.append_assoc]⟩
      · simp at h
  · rw [if_neg hne] at hq
    simp at hq

/-- C2 counterexample: for the change-set `[AddColumn(email,TEXT),
RenameTable(customers)]` the compiler emits the `ADD COLUMN` statement
*before* the `RENAME`, addressed to the *old* table name — not in the
claimed fixed kind-order with the rename first; swapping the input events
changes the emitted statement order, so the order is not independent of
the input order. -/
theorem compile_order_counterexample :
    alter_table_queries "users"
      [AddColumn "email" BDataType.TEXT, ChangeTableName "customers"] ["id"] none =
      ["ALTER TABLE \"users\" ADD COLUMN \"email\" TEXT",
       "ALTER TABLE \"users\" RENAME TO \"customers\""] ∧
    alter_table_queries "users"
      [AddColumn "email" BDataType.TEXT, ChangeTableName "customers"] ["id"] none ≠
      ["ALTER TABLE \"users\" RENAME TO \"customers\"",
       "ALTER TABLE \"customers\" ADD COLUMN \"email\" TEXT"] ∧
    alter_table_queries "users"
      [AddColumn "email" BDataType.TEXT, ChangeTableName "customers"] ["id"] none ≠
    alter_table_queries "users"
      [ChangeTableName "customers", AddColumn "email" BDataType.TEXT] ["id"] none := by
  exact ⟨by decide, by decide, by decide⟩

/-- C2 (amended): the compiler emits one statement per query-emitting
event in the order the events appear in the change-set (primary-key
reconciliation last); the statements compiled from the events *before* the
`ChangeTableName` event are exactly the prefix of the batch, and every
statement emitted *after* the rename statement (including the
reconciliation statements) addresses the table by its new name. -/
theorem statements_after_rename_use_new_name (table_name n : String)
    (l₁ l₂ : List BTableChangeEvents) (pk : List String) (pkc : Option String)
    (h₂ : ∀ e ∈ l₂, isChangeTableNameEvent e = false) :
    ∃ qs₂,
      alter_table_queries table_name (l₁ ++ ChangeTableName n :: l₂) pk pkc =
        (List.foldl alterStep ⟨table_name, pk, true, []⟩ l₁).queries ++
          ("ALTER TABLE \"" ++
              (List.foldl alterStep ⟨table_name, pk, true, []⟩ l₁).current_table_name ++
              "\" RENAME TO \"" ++ n ++ "\"") :: qs₂ ∧
      ∀ q ∈ qs₂, IsTablePrefixed n q := by
  unfold alter_table_queries
  rw [List.foldl_append, List.foldl_cons]
  obtain ⟨hcur, D, hD, hpre⟩ :=
    alterFold_nonctn l₂
      (alterStep (List.foldl alterStep ⟨table_name, pk, true, []⟩ l₁) (ChangeTableName n))
      h₂
  refine ⟨D ++ primaryKeyReconciliationQueries pk
      (List.foldl alterStep
        (alterStep (List.foldl alterStep ⟨table_name, pk, true, []⟩ l₁)
          (ChangeTableName n)) l₂) pkc, ?_, ?_⟩
  · rw [hD]
    show ((List.foldl alterStep ⟨table_name, pk, true, []⟩ l₁).queries ++
        ["ALTER TABLE \"" ++
          (List.foldl alterStep ⟨table_name, pk, true, []⟩ l₁).current_table_name ++
          "\" RENAME TO \"" ++ n ++ "\""]) ++ D ++ _ = _
    simp [List.append_assoc]
  · intro q hq
    rcases List.mem_append.mp hq with h | h
    · exact hpre q h
    · have h3 := pk_reconciliation_prefixed pk _ pkc q h
      rw [hcur] at h3
      exact h3

/-- Witness for the amended C2 theorem: the concrete change-set
`[AddColumn(email,TEXT), RenameTable(customers)]` decomposes as the add
statement, then the rename, with nothing after it left to re-address. -/
theorem statements_after_rename_use_new_name_witness :
    ∃ qs₂,
      alter_table_queries "users"
          ([AddColumn "email" BDataType.TEXT] ++ ChangeTableName "customers" :: []) ["id"]
          none =
        (List.foldl alterStep ⟨"users", ["id"], true, []⟩
            [AddColumn "email" BDataType.TEXT]).queries ++
          ("ALTER TABLE \"" ++
              (List.foldl alterStep ⟨"users", ["id"], true, []⟩
                [AddColumn "email" BDataType.TEXT]).current_table_name ++
              "\" RENAME TO \"" ++ "customers" ++ "\"") :: qs₂ ∧
      ∀ q ∈ qs₂, IsTablePrefixed "customers" q :=
  statements_after_rename_use_new_name "users" "customers"
    [AddColumn "email" BDataType.TEXT] [] ["id"] none (by simp)

/-! ## C8: identifier quoting -/

theorem alterStep_queries_quoted_any (st : AlterState) (e : BTableChangeEvents) :
    ∀ q ∈ (alterStep st e).queries,
      q ∈ st.queries ∨ IsTablePrefixed st.current_table_name q := by
  have hgen : ∀ (e' : BTableChangeEvents), isChangeTableNameEvent e' = false →
      ∀ q ∈ (alterStep st e').queries,
        q ∈ st.queries ∨ IsTablePrefixed st.current_table_name q := by
    intro e' he q hmem
    obtain ⟨_, qe, hq, hpre⟩ := alterStep_nonctn_shape st e' he
    rw [hq] at hmem
    rcases List.mem_append.mp hmem with h | h
    · exact Or.inl h
    · exact Or.inr (hpre q h)
  cases e with
  | ChangeTableName n =>
    intro q hmem
    simp only [alterStep] at hmem
    rcases List.mem_append.mp hmem with h | h
    · exact Or.inl h
    · simp only [List.mem_singleton] at h
      subst h
      exact Or.inr ⟨" RENAME TO \"" ++ n ++ "\"", by
        simp only [show ("\" RENAME TO \"" : String) = "\"" ++ " RENAME TO \"" from rfl,
          String.append_assoc]⟩
  | ChangeColumnDataType c dt => exact hgen _ rfl
  | ChangeColumnName old_name new_name => exact hgen _ rfl
  | RemoveColumn c => exact hgen _ rfl
  | AddColumn c dt => exact hgen _ rfl
  | AddForeignKey fk => exact hgen _ rfl
  | RemoveForeignKey c => exact hgen _ rfl
  | AddPrimaryKey c => exact hgen _ rfl
  | RemovePrimaryKey c => exact hgen _ rfl

theorem alterFold_queries_quoted (l : List BTableChangeEvents) (st : AlterState) :
    ∀ q ∈ (List.foldl alterStep st l).queries,
      q ∈ st.queries ∨ ∃ nm, IsTablePrefixed nm q := by
  induction l generalizing st with
  | nil => exact fun q h => Or.inl h
  | cons e es ih =>
    intro q hmem
    rw [List.foldl_cons] at hmem
    rcases ih (alterStep st e) q hmem with h | h
    · rcases alterStep_queries_quoted_any st e q h with h2 | h2
      · exact Or.inl h2
      · exact Or.inr ⟨st.current_table_name, h2⟩
    · exact Or.inr h

/-- C8 counterexample: the row-filter builder leaves the column identifier
unquoted — `"name"` never occurs quoted in the generated condition — and
the `INSERT` column list is likewise emitted bare. -/
theorem filter_condition_unquoted_counterexample :
    get_filter_condition [⟨"name", BDataType.TEXT, "bob"⟩] = "name = 'bob'" ∧
    ¬ ("\"name\"".data <:+: "name = 'bob'".data) ∧
    insertRowQuery "users" ["id"] ["name"] ["bob"] [BDataType.TEXT] =
      "INSERT INTO \"users\" (name) VALUES ('bob')" := by
  exact ⟨by decide, by decide, by decide⟩

/-- C8 (amended): every statement compiled by the DDL path addresses its
table by a double-quoted identifier, and the `UPDATE` SET clause quotes
its column name; but in the row-level DML path the filter-condition column
names are interpolated bare (only the value is quoted, for `TEXT`), as is
the `INSERT` column-name list — only the `INSERT` table name is quoted. -/
theorem identifier_quoting :
    (∀ (table_name : String) (events : List BTableChangeEvents) (pk : List String)
        (pkc : Option String) (q : String),
        q ∈ alter_table_queries table_name events pk pkc →
        ∃ nm, IsTablePrefixed nm q) ∧
    (∀ (column_name : String) (data_type : BDataType) (new_value : String),
        ∃ r, get_updates [(column_name, data_type, new_value)] =
          "\"" ++ column_name ++ "\" = " ++ r) ∧
    (∀ cond : Condition,
        ∃ r, get_filter_condition [cond] = cond.column_name ++ (" = " ++ r)) ∧
    (∀ (table_name : String) (pk column_names values : List String)
        (data_types : List BDataType),
        ∃ r, insertRowQuery table_name pk column_names values data_types =
          "INSERT INTO \"" ++ table_name ++ "\"" ++ r) := by
  refine ⟨?_, ?_, ?_, ?_⟩
  · intro tn events pk pkc q hq
    unfold alter_table_queries at hq
    rcases List.mem_append.mp hq with h | h
    · rcases alterFold_queries_quoted events _ q h with h2 | h2
      · simp at h2
      · exact h2
    · exact ⟨_, pk_reconciliation_prefixed pk _ pkc q h⟩
  · intro column_name data_type new_value
    exact ⟨_, rfl⟩
  · intro cond
    refine ⟨if cond.data_type == BDataType.TEXT then "'" ++ cond.value ++ "'"
      else cond.value, ?_⟩
    show cond.column_name ++ " = " ++
        (if cond.data_type == BDataType.TEXT then "'" ++ cond.value ++ "'"
          else cond.value) =
      cond.column_name ++ (" = " ++
        (if cond.data_type == BDataType.TEXT then "'" ++ cond.value ++ "'"
          else cond.value))
    rw [String.append_assoc]
  · intro tn pk cns vs dts
    refine ⟨" (" ++ String.intercalate ", "
        (((cns.zip (vs.zip dts)).map
          (fun p => (p.1, insertValueFor tn pk p.1 p.2.1 p.2.2))).map Prod.fst) ++
      ") VALUES (" ++ String.intercalate ", "
        (((cns.zip (vs.zip dts)).map
          (fun p => (p.1, insertValueFor tn pk p.1 p.2.1 p.2.2))).map Prod.snd) ++
      ")", ?_⟩
    unfold insertRowQuery
    simp only [show ("\" (" : String) = "\"" ++ " (" from rfl, String.append_assoc]

/-- Witness for the amended C8 theorem: the single compiled statement for
`AddColumn(email, TEXT)` addresses a double-quoted table identifier. -/
theorem identifier_quoting_witness :
    ∃ nm, IsTablePrefixed nm "ALTER TABLE \"users\" ADD COLUMN \"email\" TEXT" :=
  identifier_quoting.1 "users" [AddColumn "email" BDataType.TEXT] ["id"] none
    "ALTER TABLE \"users\" ADD COLUMN \"email\" TEXT" (by decide)

end Crm
